import Mathlib

/-!
Verification of the room-state service of the conduit homeserver,
`src/service/rooms/state/mod.rs`, against its specification.

The service functions present in the repository excerpt
(`force_state`, `set_event_state`, `append_to_state`,
`calculate_invite_state`, `set_room_state`, `get_room_version`,
`get_room_shortstatehash`) are translated directly from the Rust source.
The collaborator services they call (shortid registry, state compressor,
snapshot layer, timeline storage, membership cache, `room_state_get`) are
not part of the excerpt and are modelled from the spec; each such
definition carries a doc comment saying so.

Modelling choices:
* Machine integers (`u64`) are `Nat`; all ids are freshly allocated from the
  global monotonic counter, so no wraparound arithmetic arises.
* A 16-byte compressed state event is the number
  `shortstatekey * 2^64 + shorteventid`, exactly the value of the
  big-endian byte concatenation, so lexicographic byte order is numeric
  order and the leading-8-byte prefix test is division by `2^64`.
* The key/value store is a record of association lists; the snapshot layer
  stores each short-state-hash together with its materialized ancestor
  chain (the value that `load_shortstatehash_info` returns).  The
  flat-versus-diff storage policy of §4.C is a layout decision below the
  granularity of these claims; the `diff_budget` argument of every
  `save_state_from_diff` call is recorded in a write log.
* Database writes are additionally recorded in an ordered write log
  (`DB.log`), so that claims about which writes happen, and in which
  order, are statable.
* Rust `HashSet`s are `Finset Nat`; where the code iterates over a
  `HashSet` (the `statediffnew` loop of `force_state`) the model takes the
  elements as a `List Nat` in iteration order.
* A Rust panic (`.expect(...)`) is the error value `Error.expectFailed`.
-/

/-- MembershipState values recognised by the membership extractor of
`force_state`.  Modelled from the spec: the `MembershipState` type of the
ruma library is not in the excerpt; §4.D step 3 lists the five values. -/
inductive MembershipState
  | join | invite | knock | leave | ban
deriving DecidableEq, Repr

abbrev EventId := String

abbrev RoomId := String

/-- The content of an event, reduced to the two fields the excerpt reads.
Modelled from the spec: serde JSON parsing is not embeddable; a field is
`some _` exactly when the corresponding parse of the stored JSON succeeds
(`membership` for the `ExtractMembership` parse in `force_state`,
`roomVersion` for the `RoomCreateEventContent` parse in
`get_room_version`). -/
structure Content where
  membership : Option MembershipState := none
  roomVersion : Option String := none
deriving DecidableEq, Repr

/-- The fields of a `PduEvent` that the room-state service reads. -/
structure PduEvent where
  event_id : EventId
  room_id : RoomId
  sender : String
  kind : String
  state_key : Option String
  content : Content
deriving DecidableEq, Repr

/-- Error outcomes: `badDatabase` for `Error::BadDatabase` /
`Error::bad_database`, `expectFailed` for a Rust panic via `.expect`. -/
inductive Error
  | badDatabase (msg : String)
  | expectFailed (msg : String)
deriving DecidableEq, Repr

/-- One entry of the ancestor chain returned by
`load_shortstatehash_info`: the snapshot id, its materialized set of
compressed state events, and the diff it was created from. -/
structure StateInfo where
  hash : Nat
  full : Finset Nat
  addedSet : Finset Nat
  removedSet : Finset Nat
deriving DecidableEq

/-- A database write, recorded in order in `DB.log`.  `saveState` records a
`save_state_from_diff` call with its arguments, `eventStateLink` the
shorteventid → shortstatehash write, `roomPointer` the room → state write,
`membershipUpdate` a `state_cache.update_membership` notification and
`joinedCountRecompute` a `state_cache.update_joined_count` call. -/
inductive WriteOp
  | saveState (hash : Nat) (addedSet removedSet : Finset Nat) (budget : Nat)
      (chain : List StateInfo)
  | eventStateLink (shorteventid shortstatehash : Nat)
  | roomPointer (room : RoomId) (shortstatehash : Nat)
  | membershipUpdate (room : RoomId) (user : String) (m : MembershipState) (sender : String)
  | joinedCountRecompute (room : RoomId)
deriving DecidableEq

/-- The server database, §6 persisted layout, as association lists, plus
the ordered write log. -/
structure DB where
  counter : Nat
  eventShort : List (EventId × Nat)
  shortEvent : List (Nat × EventId)
  statekeyShort : List ((String × String) × Nat)
  statehashShort : List (List Nat × Nat)
  snapshotInfo : List (Nat × List StateInfo)
  eventState : List (Nat × Nat)
  roomState : List (RoomId × Nat)
  pdus : List (EventId × PduEvent)
  log : List WriteOp

/-- First-match association-list lookup (the key/value store `get`). -/
def alookup {α β : Type} [DecidableEq α] (a : α) : List (α × β) → Option β
  | [] => none
  | (k, b) :: es => if a = k then some b else alookup a es

/-- Modelled from the spec: §4.A shortid registry,
`get_or_create_shorteventid`.  Looks the event id up; otherwise allocates
the next value of the process-wide monotonic counter and records the
mapping in both directions. -/
def get_or_create_shorteventid (db : DB) (e : EventId) : DB × Nat :=
  match alookup e db.eventShort with
  | some s => (db, s)
  | none =>
      ({ db with
          counter := db.counter + 1,
          eventShort := (e, db.counter) :: db.eventShort,
          shortEvent := (db.counter, e) :: db.shortEvent }, db.counter)

/-- Modelled from the spec: §4.A shortid registry,
`get_or_create_shortstatekey` on the pair `(event-type, state-key)`. -/
def get_or_create_shortstatekey (db : DB) (k : String × String) : DB × Nat :=
  match alookup k db.statekeyShort with
  | some s => (db, s)
  | none =>
      ({ db with
          counter := db.counter + 1,
          statekeyShort := (k, db.counter) :: db.statekeyShort }, db.counter)

/-- Modelled from the spec: §4.A shortid registry,
`get_or_create_shortstatehash (digest) → (u64, already_existed)`. -/
def get_or_create_shortstatehash (db : DB) (digest : List Nat) : DB × Nat × Bool :=
  match alookup digest db.statehashShort with
  | some s => (db, s, true)
  | none =>
      ({ db with
          counter := db.counter + 1,
          statehashShort := (digest, db.counter) :: db.statehashShort }, db.counter, false)

/-- Modelled from the spec: §9 counter allocation,
`services().globals.next_count()` — one atomic increment, never reusing a
value. -/
def next_count (db : DB) : Nat × DB :=
  (db.counter, { db with counter := db.counter + 1 })

/-- Modelled from the spec: §4.B, `compress_state_event` — the big-endian
concatenation `shortstatekey ‖ shorteventid`, here the number
`shortstatekey * 2^64 + shorteventid`.  As in the source it resolves the
event id through the shortid registry itself. -/
def compress_state_event (db : DB) (shortstatekey : Nat) (e : EventId) : DB × Nat :=
  let r := get_or_create_shorteventid db e
  (r.1, shortstatekey * 2 ^ 64 + r.2)

/-- Modelled from the spec: §4.B, `parse_compressed_state_event` — splits
the 16-byte blob back into `(shortstatekey, event-id)`, resolving the
short event id through the registry; fails on a wrong length (here: a
number not representable in 16 bytes) or an unknown short event id. -/
def parse_compressed_state_event (db : DB) (b : Nat) : Except Error (Nat × EventId) :=
  if b < 2 ^ 128 then
    match alookup (b % 2 ^ 64) db.shortEvent with
    | some e => .ok (b / 2 ^ 64, e)
    | none => .error (.badDatabase "shorteventid does not exist")
  else .error (.badDatabase "compressed state event has wrong length")

/-- Modelled from the spec: §4.C, `load_shortstatehash_info` — the
memoized ancestor chain of a snapshot, oldest to newest, each entry with
its materialized set.  Fails on an unknown snapshot id. -/
def load_shortstatehash_info (db : DB) (h : Nat) : Except Error (List StateInfo) :=
  match alookup h db.snapshotInfo with
  | some c => .ok c
  | none => .error (.badDatabase "missing shortstatehash")

/-- The `previous_shortstatehash.map_or_else(|| Ok(Vec::new()), |p|
load_shortstatehash_info(p))` pattern shared by `append_to_state` and
`set_event_state`. -/
def load_parent_chain (db : DB) : Option Nat → Except Error (List StateInfo)
  | some p => load_shortstatehash_info db p
  | none => .ok []

/-- The materialized set of the tip of an ancestor chain (`flatten` of the
parent), empty when the chain is empty. -/
def tipFull (chain : List StateInfo) : Finset Nat :=
  (chain.getLast?).elim ∅ StateInfo.full

/-- The `iter().find(|bytes| bytes.starts_with(&shortstatekey.to_be_bytes()))`
search in a materialized set: the blob whose leading 8 bytes are the given
short state key.  `HashSet` iteration order is arbitrary; the model picks
the least match, which is the unique match whenever the snapshot satisfies
the §4.C one-blob-per-state-key invariant. -/
def lookupKey (s : Finset Nat) (sk : Nat) : Option Nat :=
  if h : (s.filter (fun b => b / 2 ^ 64 = sk)).Nonempty then
    some ((s.filter (fun b => b / 2 ^ 64 = sk)).min' h)
  else none

/-- The `replaces` computation of `append_to_state`:
`states_parents.last().map(|info| info.1.iter().find(...)).unwrap_or_default()`. -/
def replOf (chain : List StateInfo) (sk : Nat) : Option Nat :=
  ((chain.getLast?).map (fun t => lookupKey t.full sk)).getD none

/-- Modelled from the spec: §4.C, `save_state_from_diff` — persists the
new snapshot with materialized contents
`(flatten(parent) \ removed) ∪ added` at the end of the ancestor chain,
and records the call (including `diff_budget`) in the write log.  The
flat-versus-diff storage choice of the policy is a layout decision that
does not change the materialized contents. -/
def save_state_from_diff (db : DB) (h : Nat) (addedS removedS : Finset Nat)
    (budget : Nat) (chain : List StateInfo) : DB :=
  { db with
      snapshotInfo :=
        (h, chain ++ [⟨h, (tipFull chain \ removedS) ∪ addedS, addedS, removedS⟩])
          :: db.snapshotInfo,
      log := db.log ++ [.saveState h addedS removedS budget chain] }

/-- The shorteventid → shortstatehash write (`shorteventid_shortstatehash
.insert` in `append_to_state`, `db.set_event_state` in `set_event_state`). -/
def withEventStateLink (db : DB) (sev h : Nat) : DB :=
  { db with
      eventState := (sev, h) :: db.eventState,
      log := db.log ++ [.eventStateLink sev h] }

/-- The `if let Some(p) = previous_shortstatehash { insert link }` step of
`append_to_state`: the link is written only when a previous room state
exists. -/
def recordLink (db : DB) (sev : Nat) : Option Nat → DB
  | some p => withEventStateLink db sev p
  | none => db

/-- Modelled from the spec: §6 state-hash digest — a collision-resistant
content hash over the blobs sorted lexicographically; modelled as the
sorted list itself (an injective function of the set, as a
collision-resistant hash is assumed to be). -/
def calculate_hash (s : Finset Nat) : List Nat := s.sort (· ≤ ·)

/-- `get_room_shortstatehash`: the room pointer (translated from the
source; the underlying `db` read is an association-list lookup). -/
def get_room_shortstatehash (db : DB) (room_id : RoomId) : Option Nat :=
  alookup room_id db.roomState

/-- Modelled from the spec: §4.D `room_state_get` — flatten the room's
current snapshot, filter by the short state key of `(type, state_key)`,
resolve the short event id to the stored event.  Absent room pointer,
unallocated state key or no matching blob give `none`; a blob that cannot
be resolved is database corruption. -/
def room_state_get (db : DB) (room_id : RoomId) (event_type state_key : String) :
    Except Error (Option PduEvent) :=
  match get_room_shortstatehash db room_id with
  | none => .ok none
  | some h =>
    match alookup (event_type, state_key) db.statekeyShort with
    | none => .ok none
    | some sk =>
      match load_shortstatehash_info db h with
      | .error e => .error e
      | .ok chain =>
        match lookupKey (tipFull chain) sk with
        | none => .ok none
        | some b =>
          match alookup (b % 2 ^ 64) db.shortEvent with
          | none => .error (.badDatabase "shorteventid does not exist")
          | some eid =>
            match alookup eid db.pdus with
            | none => .error (.badDatabase "pdu not found")
            | some pdu => .ok (some pdu)

/-- Modelled from the spec: `UserId::parse` — the state key is a valid
user id when it has the `@localpart:servername` shape. -/
def isValidUserId (s : String) : Bool :=
  s.startsWith "@" && s.toList.contains ':'

/-- Modelled from the spec: `timeline.get_pdu_json` — the stored event, if
any.  Stored events are modelled already structured, so the
re-serialization round trip of the source cannot fail here. -/
def get_pdu_json (db : DB) (e : EventId) : Option PduEvent :=
  alookup e db.pdus

/-- One iteration of the `force_state` loop: the membership-cache
notification produced by one added blob, or `none` when the blob is
skipped.  A blob is skipped when it does not parse, its event is not
stored, the event type is not `m.room.member`, the membership value does
not parse, the state key is absent, or the state key is not a valid user
id — exactly the `continue` chain of the source. -/
def membership_notification (db : DB) (room : RoomId) (b : Nat) : Option WriteOp :=
  match parse_compressed_state_event db b with
  | .error _ => none
  | .ok (_, event_id) =>
    match get_pdu_json db event_id with
    | none => none
    | some pdu =>
      if pdu.kind ≠ "m.room.member" then none
      else
        match pdu.content.membership with
        | none => none
        | some m =>
          match pdu.state_key with
          | none => none
          | some k =>
            if isValidUserId k then some (.membershipUpdate room k m pdu.sender)
            else none

/-- The `for event_id in statediffnew ...` loop of `force_state`,
appending each produced membership-cache notification to the write log. -/
def force_state_loop (room : RoomId) : DB → List Nat → DB
  | db, [] => db
  | db, b :: rest =>
    match membership_notification db room b with
    | some w => force_state_loop room { db with log := db.log ++ [w] } rest
    | none => force_state_loop room db rest

/-- `set_room_state`: advance the room pointer
(`roomid_shortstatehash.insert`). -/
def set_room_state (db : DB) (room_id : RoomId) (shortstatehash : Nat) : DB :=
  { db with
      roomState := (room_id, shortstatehash) :: db.roomState,
      log := db.log ++ [.roomPointer room_id shortstatehash] }

/-- `force_state`: set the room to the given statehash and update caches.
`statediffnew` is taken in iteration order; `statediffremoved` is a
parameter of the source signature that the body never reads. -/
def force_state (db : DB) (room_id : RoomId) (shortstatehash : Nat)
    (statediffnew statediffremoved : List Nat) : Except Error DB :=
  let db1 := force_state_loop room_id db statediffnew
  let db2 := { db1 with log := db1.log ++ [.joinedCountRecompute room_id] }
  .ok (set_room_state db2 room_id shortstatehash)

/-- `set_event_state`: associate an explicitly given full state set with
the event, deduplicating by content digest. -/
def set_event_state (db : DB) (event_id : EventId) (room_id : RoomId)
    (state_ids_compressed : Finset Nat) : Except Error DB :=
  let r1 := get_or_create_shorteventid db event_id
  let db1 := r1.1
  let shorteventid := r1.2
  let previous_shortstatehash := get_room_shortstatehash db1 room_id
  let state_hash := calculate_hash state_ids_compressed
  let r2 := get_or_create_shortstatehash db1 state_hash
  let db2 := r2.1
  let shortstatehash := r2.2.1
  let already_existed := r2.2.2
  if already_existed then
    .ok (withEventStateLink db2 shorteventid shortstatehash)
  else
    match load_parent_chain db2 previous_shortstatehash with
    | .error e => .error e
    | .ok states_parents =>
      let dn_dr :=
        match states_parents.getLast? with
        | some t => (state_ids_compressed \ t.full, t.full \ state_ids_compressed)
        | none => (state_ids_compressed, (∅ : Finset Nat))
      let db3 := save_state_from_diff db2 shortstatehash dn_dr.1 dn_dr.2 1000000 states_parents
      .ok (withEventStateLink db3 shorteventid shortstatehash)

/-- `append_to_state`: derive the post-event snapshot of a new event from
the room's current snapshot.  Does not advance the room pointer. -/
def append_to_state (db : DB) (new_pdu : PduEvent) : Except Error (DB × Nat) :=
  let r1 := get_or_create_shorteventid db new_pdu.event_id
  let db1 := r1.1
  let shorteventid := r1.2
  let previous_shortstatehash := get_room_shortstatehash db1 new_pdu.room_id
  let db2 := recordLink db1 shorteventid previous_shortstatehash
  match new_pdu.state_key with
  | some state_key =>
    match load_parent_chain db2 previous_shortstatehash with
    | .error e => .error e
    | .ok states_parents =>
      let r2 := get_or_create_shortstatekey db2 (new_pdu.kind, state_key)
      let db3 := r2.1
      let shortstatekey := r2.2
      let r3 := compress_state_event db3 shortstatekey new_pdu.event_id
      let db4 := r3.1
      let newBlob := r3.2
      let replaces := replOf states_parents shortstatekey
      if replaces = some newBlob then
        match previous_shortstatehash with
        | some p => .ok (db4, p)
        | none => .error (.expectFailed "must exist")
      else
        let r4 := next_count db4
        let shortstatehash := r4.1
        let db5 := r4.2
        let statediffremoved : Finset Nat := replaces.elim ∅ (fun r => {r})
        .ok (save_state_from_diff db5 shortstatehash {newBlob} statediffremoved 2
              states_parents,
            shortstatehash)
  | none =>
    match previous_shortstatehash with
    | some p => .ok (db2, p)
    | none => .error (.expectFailed "first event in room must be a state event")

/-- A stripped state event (`to_stripped_state_event`); the stripping
itself only redacts fields, so the model keeps the whole event. -/
structure StrippedStateEvent where
  pdu : PduEvent
deriving DecidableEq

/-- Modelled from the spec: `PduEvent::to_stripped_state_event`. -/
def to_stripped_state_event (p : PduEvent) : StrippedStateEvent := ⟨p⟩

/-- The `state.push(...)` step of `calculate_invite_state`, fed with the
result of one `room_state_get`. -/
def pushOpt (acc : List StrippedStateEvent) : Option PduEvent → List StrippedStateEvent
  | some e => acc ++ [to_stripped_state_event e]
  | none => acc

/-- `calculate_invite_state`: the recommended stripped events of the
invite room, in source order, followed by the stripped invite event. -/
def calculate_invite_state (db : DB) (invite_event : PduEvent) :
    Except Error (List StrippedStateEvent) :=
  match room_state_get db invite_event.room_id "m.room.create" "" with
  | .error e => .error e
  | .ok o1 =>
    match room_state_get db invite_event.room_id "m.room.join_rules" "" with
    | .error e => .error e
    | .ok o2 =>
      match room_state_get db invite_event.room_id "m.room.canonical_alias" "" with
      | .error e => .error e
      | .ok o3 =>
        match room_state_get db invite_event.room_id "m.room.avatar" "" with
        | .error e => .error e
        | .ok o4 =>
          match room_state_get db invite_event.room_id "m.room.name" "" with
          | .error e => .error e
          | .ok o5 =>
            match room_state_get db invite_event.room_id "m.room.member"
                invite_event.sender with
            | .error e => .error e
            | .ok o6 =>
              let state :=
                pushOpt (pushOpt (pushOpt (pushOpt (pushOpt (pushOpt [] o1) o2) o3) o4) o5) o6
              .ok (state ++ [to_stripped_state_event invite_event])

/-- Modelled from the spec: the serde parse of the `m.room.create`
content (`RoomCreateEventContent`) followed by the `room_version` field
read; a failed parse is the `bad_database "Invalid create event in db."`
error logged by the source. -/
def parse_create_event_content (c : Content) : Except Error String :=
  match c.roomVersion with
  | some v => .ok v
  | none => .error (.badDatabase "Invalid create event in db.")

/-- The `Option<Result>.transpose()` combinator used by
`get_room_version`. -/
def exceptTranspose {α : Type} : Option (Except Error α) → Except Error (Option α)
  | none => .ok none
  | some (.error e) => .error e
  | some (.ok a) => .ok (some a)

/-- `get_room_version`: the `room_version` of the current `m.room.create`
event, mirroring the source's `map`/`transpose`/`ok_or_else` chain. -/
def get_room_version (db : DB) (room_id : RoomId) : Except Error String :=
  match room_state_get db room_id "m.room.create" "" with
  | .error e => .error e
  | .ok create_event =>
    match exceptTranspose (create_event.map (fun ev => parse_create_event_content ev.content)) with
    | .error e => .error e
    | .ok create_event_content =>
      match create_event_content with
      | none => .error (.badDatabase "Invalid room version")
      | some room_version => .ok room_version

/-! ### A concrete database used by the witnesses and counterexamples

Room `!r` currently points at snapshot `10`, whose state holds a create
event, a topic event and one member event.  Short ids `1`–`4` are events,
`5`–`8` state keys; the counter stands at `50`. -/

def pduCreate : PduEvent :=
  ⟨"$create", "!r", "@a:s", "m.room.create", some "", ⟨none, some "6"⟩⟩

def pduTopic1 : PduEvent :=
  ⟨"$topic1", "!r", "@a:s", "m.room.topic", some "", ⟨none, none⟩⟩

def pduTopic2 : PduEvent :=
  ⟨"$topic2", "!r", "@a:s", "m.room.topic", some "", ⟨none, none⟩⟩

def pduMember : PduEvent :=
  ⟨"$mem", "!r", "@a:s", "m.room.member", some "@a:s", ⟨some .join, none⟩⟩

def pduMessage : PduEvent :=
  ⟨"$msg", "!r", "@a:s", "m.room.message", none, ⟨none, none⟩⟩

def blobCreate : Nat := 5 * 2 ^ 64 + 1

def blobTopic1 : Nat := 6 * 2 ^ 64 + 2

def blobTopic2 : Nat := 6 * 2 ^ 64 + 3

def blobMember : Nat := 7 * 2 ^ 64 + 4

def exFull : Finset Nat := {blobCreate, blobTopic1, blobMember}

def exChain : List StateInfo := [⟨10, exFull, exFull, ∅⟩]

def exDB : DB where
  counter := 50
  eventShort := [("$create", 1), ("$topic1", 2), ("$topic2", 3), ("$mem", 4)]
  shortEvent := [(1, "$create"), (2, "$topic1"), (3, "$topic2"), (4, "$mem")]
  statekeyShort :=
    [(("m.room.create", ""), 5), (("m.room.topic", ""), 6),
     (("m.room.member", "@a:s"), 7), (("m.room.name", ""), 8)]
  statehashShort := []
  snapshotInfo := [(10, exChain)]
  eventState := []
  roomState := [("!r", 10)]
  pdus :=
    [("$create", pduCreate), ("$topic1", pduTopic1), ("$topic2", pduTopic2),
     ("$mem", pduMember)]
  log := []

/-- The database produced by `append_to_state exDB pduTopic2` (slow path):
snapshot `50` saved, event-to-state link recorded, room pointer still at
`10`. -/
def exDBafterTopic2 : DB :=
  save_state_from_diff { withEventStateLink exDB 3 10 with counter := 51 }
    50 {blobTopic2} {blobTopic1} 2 exChain

/-- `exDB` with no room pointer for any room: every room is still empty. -/
def exDBemptyRoom : DB := { exDB with roomState := [] }

/-- `exDB` with the content digest of `{blobCreate}` already registered as
short-state-hash `20`. -/
def exDBhash : DB :=
  { exDB with statehashShort := [(calculate_hash {blobCreate}, 20)] }

/-- An invite event in room `!r` sent by `@a:s`. -/
def pduInvite : PduEvent :=
  ⟨"$inv", "!r", "@a:s", "m.room.member", some "@b:s", ⟨some .invite, none⟩⟩

/-- A create event whose content does not parse as create-event content. -/
def pduBadCreate : PduEvent :=
  ⟨"$create", "!r", "@a:s", "m.room.create", some "", ⟨none, none⟩⟩

/-- `exDB` with the create event's content replaced by an unparseable one. -/
def exDBbadCreate : DB :=
  { exDB with
      pdus :=
        [("$create", pduBadCreate), ("$topic1", pduTopic1), ("$topic2", pduTopic2),
         ("$mem", pduMember)] }

/-! ### Helper lemmas -/

theorem alookup_cons_self {α β : Type} [DecidableEq α] (a : α) (b : β) (l : List (α × β)) :
    alookup a ((a, b) :: l) = some b := by
  simp [alookup]

theorem goc_event_eq (db : DB) (e : EventId) (s : Nat)
    (h : alookup e db.eventShort = some s) :
    get_or_create_shorteventid db e = (db, s) := by
  unfold get_or_create_shorteventid
  rw [h]

theorem goc_statekey_eq (db : DB) (k : String × String) (s : Nat)
    (h : alookup k db.statekeyShort = some s) :
    get_or_create_shortstatekey db k = (db, s) := by
  unfold get_or_create_shortstatekey
  rw [h]

theorem goc_statehash_existing (db : DB) (d : List Nat) (s : Nat)
    (h : alookup d db.statehashShort = some s) :
    get_or_create_shortstatehash db d = (db, s, true) := by
  unfold get_or_create_shortstatehash
  rw [h]

theorem goc_statehash_new (db : DB) (d : List Nat)
    (h : alookup d db.statehashShort = none) :
    get_or_create_shortstatehash db d =
      ({ db with counter := db.counter + 1,
                 statehashShort := (d, db.counter) :: db.statehashShort },
       db.counter, false) := by
  unfold get_or_create_shortstatehash
  rw [h]

theorem recordLink_snapshotInfo (db : DB) (sev : Nat) (o : Option Nat) :
    (recordLink db sev o).snapshotInfo = db.snapshotInfo := by
  cases o <;> rfl

theorem recordLink_eventShort (db : DB) (sev : Nat) (o : Option Nat) :
    (recordLink db sev o).eventShort = db.eventShort := by
  cases o <;> rfl

theorem recordLink_statekeyShort (db : DB) (sev : Nat) (o : Option Nat) :
    (recordLink db sev o).statekeyShort = db.statekeyShort := by
  cases o <;> rfl

theorem recordLink_counter (db : DB) (sev : Nat) (o : Option Nat) :
    (recordLink db sev o).counter = db.counter := by
  cases o <;> rfl

theorem load_info_congr (db db' : DB) (x : Nat)
    (h : db'.snapshotInfo = db.snapshotInfo) :
    load_shortstatehash_info db' x = load_shortstatehash_info db x := by
  unfold load_shortstatehash_info
  rw [h]

theorem blob_div (sk sev : Nat) (h : sev < 2 ^ 64) :
    (sk * 2 ^ 64 + sev) / 2 ^ 64 = sk := by
  rw [mul_comm, Nat.mul_add_div (by positivity), Nat.div_eq_of_lt h, Nat.add_zero]

theorem blob_mod (sk sev : Nat) (h : sev < 2 ^ 64) :
    (sk * 2 ^ 64 + sev) % 2 ^ 64 = sev := by
  rw [mul_comm, Nat.mul_add_mod, Nat.mod_eq_of_lt h]

theorem lookupKey_eq_none_iff (s : Finset Nat) (sk : Nat) :
    lookupKey s sk = none ↔ s.filter (fun b => b / 2 ^ 64 = sk) = ∅ := by
  unfold lookupKey
  by_cases h : (s.filter (fun b => b / 2 ^ 64 = sk)).Nonempty
  · rw [dif_pos h]
    simp only [reduceCtorEq, false_iff]
    intro he
    rw [he] at h
    exact absurd h (by simp)
  · rw [dif_neg h]
    simp only [true_iff]
    exact Finset.not_nonempty_iff_eq_empty.mp h

theorem lookupKey_mem (s : Finset Nat) (sk b : Nat)
    (h : lookupKey s sk = some b) : b ∈ s ∧ b / 2 ^ 64 = sk := by
  unfold lookupKey at h
  split at h
  · rename_i hne
    injection h with h
    subst h
    have := Finset.min'_mem _ hne
    rw [Finset.mem_filter] at this
    exact this
  · cases h

theorem lookupKey_of_filter_singleton (s : Finset Nat) (sk x : Nat)
    (h : s.filter (fun b => b / 2 ^ 64 = sk) = {x}) :
    lookupKey s sk = some x := by
  unfold lookupKey
  rw [h]
  simp [Finset.singleton_nonempty]

theorem replOf_eq_lookupKey (chain : List StateInfo) (sk : Nat) :
    replOf chain sk = lookupKey (tipFull chain) sk := by
  unfold replOf tipFull
  cases chain.getLast? with
  | none => simp [lookupKey, Finset.filter_empty]
  | some t => simp

theorem lookupKey_after_update (pf : Finset Nat) (sk sev : Nat) (hsev : sev < 2 ^ 64)
    (huniq : ∀ b1 ∈ pf, ∀ b2 ∈ pf, b1 / 2 ^ 64 = sk → b2 / 2 ^ 64 = sk → b1 = b2) :
    lookupKey ((pf \ (lookupKey pf sk).elim ∅ (fun r => {r})) ∪ {sk * 2 ^ 64 + sev}) sk
      = some (sk * 2 ^ 64 + sev) := by
  apply lookupKey_of_filter_singleton
  rw [Finset.filter_union]
  have hx : (sk * 2 ^ 64 + sev) / 2 ^ 64 = sk := blob_div sk sev hsev
  have h2 : Finset.filter (fun b => b / 2 ^ 64 = sk) ({sk * 2 ^ 64 + sev} : Finset Nat)
      = {sk * 2 ^ 64 + sev} := by
    rw [Finset.filter_singleton, if_pos hx]
  have h1 : Finset.filter (fun b => b / 2 ^ 64 = sk)
      (pf \ (lookupKey pf sk).elim ∅ (fun r => {r})) = ∅ := by
    cases hr : lookupKey pf sk with
    | none =>
      simp only [Option.elim]
      rw [Finset.sdiff_empty]
      exact (lookupKey_eq_none_iff pf sk).mp hr
    | some r =>
      simp only [Option.elim]
      obtain ⟨hrmem, hrk⟩ := lookupKey_mem pf sk r hr
      rw [Finset.eq_empty_iff_forall_not_mem]
      intro b hb
      rw [Finset.mem_filter, Finset.mem_sdiff, Finset.mem_singleton] at hb
      exact hb.1.2 (huniq b hb.1.1 r hrmem hb.2 hrk)
  rw [h1, h2, Finset.empty_union]

@[simp]
theorem recordLink_some (db : DB) (sev p : Nat) :
    recordLink db sev (some p) = withEventStateLink db sev p := rfl

@[simp]
theorem recordLink_none (db : DB) (sev : Nat) :
    recordLink db sev none = db := rfl

@[simp]
theorem withEventStateLink_snapshotInfo (db : DB) (sev h : Nat) :
    (withEventStateLink db sev h).snapshotInfo = db.snapshotInfo := rfl

@[simp]
theorem withEventStateLink_eventShort (db : DB) (sev h : Nat) :
    (withEventStateLink db sev h).eventShort = db.eventShort := rfl

@[simp]
theorem withEventStateLink_shortEvent (db : DB) (sev h : Nat) :
    (withEventStateLink db sev h).shortEvent = db.shortEvent := rfl

@[simp]
theorem withEventStateLink_statekeyShort (db : DB) (sev h : Nat) :
    (withEventStateLink db sev h).statekeyShort = db.statekeyShort := rfl

@[simp]
theorem withEventStateLink_statehashShort (db : DB) (sev h : Nat) :
    (withEventStateLink db sev h).statehashShort = db.statehashShort := rfl

@[simp]
theorem withEventStateLink_roomState (db : DB) (sev h : Nat) :
    (withEventStateLink db sev h).roomState = db.roomState := rfl

@[simp]
theorem withEventStateLink_counter (db : DB) (sev h : Nat) :
    (withEventStateLink db sev h).counter = db.counter := rfl

@[simp]
theorem withEventStateLink_pdus (db : DB) (sev h : Nat) :
    (withEventStateLink db sev h).pdus = db.pdus := rfl

@[simp]
theorem withEventStateLink_log (db : DB) (sev h : Nat) :
    (withEventStateLink db sev h).log = db.log ++ [.eventStateLink sev h] := rfl

@[simp]
theorem withEventStateLink_eventState (db : DB) (sev h : Nat) :
    (withEventStateLink db sev h).eventState = (sev, h) :: db.eventState := rfl

@[simp]
theorem save_state_from_diff_snapshotInfo (db : DB) (h : Nat) (a r : Finset Nat)
    (bud : Nat) (c : List StateInfo) :
    (save_state_from_diff db h a r bud c).snapshotInfo =
      (h, c ++ [⟨h, (tipFull c \ r) ∪ a, a, r⟩]) :: db.snapshotInfo := rfl

@[simp]
theorem save_state_from_diff_log (db : DB) (h : Nat) (a r : Finset Nat)
    (bud : Nat) (c : List StateInfo) :
    (save_state_from_diff db h a r bud c).log =
      db.log ++ [.saveState h a r bud c] := rfl

@[simp]
theorem save_state_from_diff_eventShort (db : DB) (h : Nat) (a r : Finset Nat)
    (bud : Nat) (c : List StateInfo) :
    (save_state_from_diff db h a r bud c).eventShort = db.eventShort := rfl

@[simp]
theorem save_state_from_diff_shortEvent (db : DB) (h : Nat) (a r : Finset Nat)
    (bud : Nat) (c : List StateInfo) :
    (save_state_from_diff db h a r bud c).shortEvent = db.shortEvent := rfl

@[simp]
theorem save_state_from_diff_statekeyShort (db : DB) (h : Nat) (a r : Finset Nat)
    (bud : Nat) (c : List StateInfo) :
    (save_state_from_diff db h a r bud c).statekeyShort = db.statekeyShort := rfl

@[simp]
theorem save_state_from_diff_roomState (db : DB) (h : Nat) (a r : Finset Nat)
    (bud : Nat) (c : List StateInfo) :
    (save_state_from_diff db h a r bud c).roomState = db.roomState := rfl

@[simp]
theorem save_state_from_diff_pdus (db : DB) (h : Nat) (a r : Finset Nat)
    (bud : Nat) (c : List StateInfo) :
    (save_state_from_diff db h a r bud c).pdus = db.pdus := rfl

@[simp]
theorem save_state_from_diff_counter (db : DB) (h : Nat) (a r : Finset Nat)
    (bud : Nat) (c : List StateInfo) :
    (save_state_from_diff db h a r bud c).counter = db.counter := rfl

@[simp]
theorem save_state_from_diff_eventState (db : DB) (h : Nat) (a r : Finset Nat)
    (bud : Nat) (c : List StateInfo) :
    (save_state_from_diff db h a r bud c).eventState = db.eventState := rfl

@[simp]
theorem set_room_state_roomState (db : DB) (room : RoomId) (h : Nat) :
    (set_room_state db room h).roomState = (room, h) :: db.roomState := rfl

@[simp]
theorem set_room_state_snapshotInfo (db : DB) (room : RoomId) (h : Nat) :
    (set_room_state db room h).snapshotInfo = db.snapshotInfo := rfl

@[simp]
theorem set_room_state_statekeyShort (db : DB) (room : RoomId) (h : Nat) :
    (set_room_state db room h).statekeyShort = db.statekeyShort := rfl

@[simp]
theorem set_room_state_shortEvent (db : DB) (room : RoomId) (h : Nat) :
    (set_room_state db room h).shortEvent = db.shortEvent := rfl

@[simp]
theorem set_room_state_pdus (db : DB) (room : RoomId) (h : Nat) :
    (set_room_state db room h).pdus = db.pdus := rfl

@[simp]
theorem set_room_state_log (db : DB) (room : RoomId) (h : Nat) :
    (set_room_state db room h).log = db.log ++ [.roomPointer room h] := rfl

theorem append_to_state_fast_eq (db : DB) (pdu : PduEvent) (k : String) (sev sk p : Nat)
    (chain : List StateInfo)
    (hk : pdu.state_key = some k)
    (hsev : alookup pdu.event_id db.eventShort = some sev)
    (hsk : alookup (pdu.kind, k) db.statekeyShort = some sk)
    (hprev : alookup pdu.room_id db.roomState = some p)
    (hchain : alookup p db.snapshotInfo = some chain)
    (hfast : replOf chain sk = some (sk * 2 ^ 64 + sev)) :
    append_to_state db pdu = .ok (withEventStateLink db sev p, p) := by
  have hsk2 : get_or_create_shortstatekey (withEventStateLink db sev p) (pdu.kind, k)
      = (withEventStateLink db sev p, sk) :=
    goc_statekey_eq _ _ sk (by simpa using hsk)
  have hsev2 : get_or_create_shorteventid (withEventStateLink db sev p) pdu.event_id
      = (withEventStateLink db sev p, sev) :=
    goc_event_eq _ _ sev (by simpa using hsev)
  unfold append_to_state
  rw [goc_event_eq db pdu.event_id sev hsev]
  unfold get_room_shortstatehash
  simp only [hprev, hk, recordLink_some, load_parent_chain, load_shortstatehash_info,
    withEventStateLink_snapshotInfo, hchain, hsk2, compress_state_event, hsev2,
    hfast, if_true]

theorem append_to_state_slow_eq (db : DB) (pdu : PduEvent) (k : String) (sev sk : Nat)
    (prevOpt : Option Nat) (chain : List StateInfo)
    (hk : pdu.state_key = some k)
    (hsev : alookup pdu.event_id db.eventShort = some sev)
    (hsk : alookup (pdu.kind, k) db.statekeyShort = some sk)
    (hprev : alookup pdu.room_id db.roomState = prevOpt)
    (hchain : load_parent_chain db prevOpt = .ok chain)
    (hne : replOf chain sk ≠ some (sk * 2 ^ 64 + sev)) :
    append_to_state db pdu =
      .ok (save_state_from_diff
            { recordLink db sev prevOpt with counter := db.counter + 1 }
            db.counter {sk * 2 ^ 64 + sev}
            ((replOf chain sk).elim ∅ (fun r => {r})) 2 chain,
          db.counter) := by
  have hsk2 : get_or_create_shortstatekey (recordLink db sev prevOpt) (pdu.kind, k)
      = (recordLink db sev prevOpt, sk) :=
    goc_statekey_eq _ _ sk (by rw [recordLink_statekeyShort]; exact hsk)
  have hsev2 : get_or_create_shorteventid (recordLink db sev prevOpt) pdu.event_id
      = (recordLink db sev prevOpt, sev) :=
    goc_event_eq _ _ sev (by rw [recordLink_eventShort]; exact hsev)
  have hchain2 : load_parent_chain (recordLink db sev prevOpt) prevOpt = .ok chain := by
    cases prevOpt with
    | none => simpa [load_parent_chain] using hchain
    | some p =>
      simp only [load_parent_chain] at hchain ⊢
      rw [load_info_congr db (recordLink db sev (some p)) p
        (recordLink_snapshotInfo db sev (some p))]
      exact hchain
  unfold append_to_state
  rw [goc_event_eq db pdu.event_id sev hsev]
  unfold get_room_shortstatehash
  simp only [hprev, hk, hchain2, hsk2, compress_state_event, hsev2, if_neg hne,
    next_count, recordLink_counter]

theorem load_parent_chain_congr (db db' : DB) (o : Option Nat)
    (h : db'.snapshotInfo = db.snapshotInfo) :
    load_parent_chain db' o = load_parent_chain db o := by
  cases o with
  | none => rfl
  | some p => exact load_info_congr db db' p h

theorem goc_event_roomState (db : DB) (e : EventId) :
    (get_or_create_shorteventid db e).1.roomState = db.roomState := by
  unfold get_or_create_shorteventid
  cases alookup e db.eventShort <;> rfl

theorem goc_event_snapshotInfo (db : DB) (e : EventId) :
    (get_or_create_shorteventid db e).1.snapshotInfo = db.snapshotInfo := by
  unfold get_or_create_shorteventid
  cases alookup e db.eventShort <;> rfl

theorem append_to_state_non_state_eq (db : DB) (pdu : PduEvent) (p : Nat)
    (hk : pdu.state_key = none)
    (hprev : alookup pdu.room_id db.roomState = some p) :
    append_to_state db pdu =
      .ok (withEventStateLink (get_or_create_shorteventid db pdu.event_id).1
            (get_or_create_shorteventid db pdu.event_id).2 p, p) := by
  unfold append_to_state
  unfold get_room_shortstatehash
  simp only [goc_event_roomState, hprev, hk, recordLink_some]

theorem set_event_state_existing_eq (db : DB) (event_id : EventId) (room_id : RoomId)
    (s : Finset Nat) (sev h : Nat)
    (hsev : alookup event_id db.eventShort = some sev)
    (hhash : alookup (calculate_hash s) db.statehashShort = some h) :
    set_event_state db event_id room_id s = .ok (withEventStateLink db sev h) := by
  unfold set_event_state
  simp only [goc_event_eq db event_id sev hsev, goc_statehash_existing db _ h hhash]
  simp

theorem set_event_state_new_eq (db : DB) (event_id : EventId) (room_id : RoomId)
    (s : Finset Nat) (sev : Nat) (prevOpt : Option Nat) (chain : List StateInfo)
    (hsev : alookup event_id db.eventShort = some sev)
    (hprev : alookup room_id db.roomState = prevOpt)
    (hhash : alookup (calculate_hash s) db.statehashShort = none)
    (hchain : load_parent_chain db prevOpt = .ok chain) :
    set_event_state db event_id room_id s =
      .ok (withEventStateLink
            (save_state_from_diff
              { db with
                  counter := db.counter + 1,
                  statehashShort := (calculate_hash s, db.counter) :: db.statehashShort }
              db.counter
              (match chain.getLast? with | some t => s \ t.full | none => s)
              (match chain.getLast? with | some t => t.full \ s | none => (∅ : Finset Nat))
              1000000 chain)
            sev db.counter) := by
  have hchain2 :=
    (load_parent_chain_congr db
      { db with
          counter := db.counter + 1,
          statehashShort := (calculate_hash s, db.counter) :: db.statehashShort }
      prevOpt rfl).trans hchain
  unfold set_event_state
  unfold get_room_shortstatehash
  simp only [goc_event_eq db event_id sev hsev, hprev, goc_statehash_new db _ hhash,
    hchain2]
  cases chain.getLast? <;> simp

theorem membership_notification_log_irrel (db : DB) (l : List WriteOp) (room : RoomId)
    (b : Nat) :
    membership_notification { db with log := l } room b =
      membership_notification db room b := rfl

theorem force_state_loop_eq (room : RoomId) (l : List Nat) (db : DB) :
    force_state_loop room db l =
      { db with log := db.log ++ l.filterMap (membership_notification db room) } := by
  induction l generalizing db with
  | nil => simp [force_state_loop]
  | cons b rest ih =>
    unfold force_state_loop
    cases hb : membership_notification db room b with
    | none =>
      show force_state_loop room db rest = _
      rw [ih db]
      simp [List.filterMap_cons, hb]
    | some w =>
      show force_state_loop room { db with log := db.log ++ [w] } rest = _
      rw [ih { db with log := db.log ++ [w] }]
      have hfun : membership_notification { db with log := db.log ++ [w] } room
          = membership_notification db room :=
        funext (fun x => membership_notification_log_irrel db (db.log ++ [w]) room x)
      simp [List.filterMap_cons, hb, hfun]

theorem load_info_ok_inv (db : DB) (x : Nat) (chain : List StateInfo)
    (h : load_shortstatehash_info db x = .ok chain) :
    alookup x db.snapshotInfo = some chain := by
  unfold load_shortstatehash_info at h
  cases ha : alookup x db.snapshotInfo with
  | none => rw [ha] at h; cases h
  | some c => rw [ha] at h; injection h with h; rw [h]

theorem tipFull_concat (c : List StateInfo) (i : StateInfo) :
    tipFull (c ++ [i]) = i.full := by
  simp [tipFull, List.getLast?_concat]

theorem recordLink_shortEvent (db : DB) (sev : Nat) (o : Option Nat) :
    (recordLink db sev o).shortEvent = db.shortEvent := by
  cases o <;> rfl

theorem recordLink_pdus (db : DB) (sev : Nat) (o : Option Nat) :
    (recordLink db sev o).pdus = db.pdus := by
  cases o <;> rfl

theorem recordLink_log (db : DB) (sev : Nat) (o : Option Nat) :
    (recordLink db sev o).log = db.log ++ (o.elim [] (fun p => [.eventStateLink sev p])) := by
  cases o <;> simp

/-! ### Claim theorems -/

/-- C7: `force_state` notifies the membership cache exactly once per added
blob that resolves to a stored `m.room.member` event with a parseable
membership value and a state key that parses as a user id
(`membership_notification` is `some` exactly for those blobs, and the
notifications appear in the log in order, one per such blob); all other
added blobs are skipped silently; after the loop the joined-member count
is recomputed and then the room pointer is set to the given
shortstatehash. -/
theorem force_state_spec (db : DB) (room_id : RoomId) (shortstatehash : Nat)
    (statediffnew statediffremoved : List Nat) :
    force_state db room_id shortstatehash statediffnew statediffremoved =
      .ok { db with
              roomState := (room_id, shortstatehash) :: db.roomState,
              log := db.log
                ++ statediffnew.filterMap (membership_notification db room_id)
                ++ [.joinedCountRecompute room_id,
                    .roomPointer room_id shortstatehash] } := by
  unfold force_state
  rw [force_state_loop_eq]
  simp [set_room_state]

/-- C10: `force_state` never reads its `statediffremoved` argument — the
entire result, including every write performed, is identical for any two
removed sets, so blobs present only in the removed set cause no
membership-cache update and no other write. -/
theorem force_state_ignores_removed (db : DB) (room_id : RoomId) (shortstatehash : Nat)
    (statediffnew rem1 rem2 : List Nat) :
    force_state db room_id shortstatehash statediffnew rem1 =
      force_state db room_id shortstatehash statediffnew rem2 := rfl

/-- C2: for a state event whose compressed blob equals the blob stored in
the tip snapshot under the same short state key, `append_to_state` returns
the previous short-state-hash unchanged, writes no new snapshot record,
and the only logged write is the event-to-state link. -/
theorem append_to_state_fast_path_spec (db : DB) (pdu : PduEvent) (k : String)
    (sev sk p : Nat) (chain : List StateInfo)
    (hk : pdu.state_key = some k)
    (hsev : alookup pdu.event_id db.eventShort = some sev)
    (hsk : alookup (pdu.kind, k) db.statekeyShort = some sk)
    (hprev : alookup pdu.room_id db.roomState = some p)
    (hchain : alookup p db.snapshotInfo = some chain)
    (hfast : replOf chain sk = some (sk * 2 ^ 64 + sev)) :
    append_to_state db pdu = .ok (withEventStateLink db sev p, p) ∧
      (withEventStateLink db sev p).snapshotInfo = db.snapshotInfo ∧
      (withEventStateLink db sev p).log = db.log ++ [.eventStateLink sev p] :=
  ⟨append_to_state_fast_eq db pdu k sev sk p chain hk hsev hsk hprev hchain hfast,
   rfl, rfl⟩

/-- C2 witness: appending the topic event already current in `exDB`
returns hash `10` unchanged and writes no snapshot record. -/
theorem append_to_state_fast_path_spec_witness :
    append_to_state exDB pduTopic1 = .ok (withEventStateLink exDB 2 10, 10) ∧
      (withEventStateLink exDB 2 10).snapshotInfo = exDB.snapshotInfo ∧
      (withEventStateLink exDB 2 10).log = exDB.log ++ [.eventStateLink 2 10] :=
  append_to_state_fast_path_spec exDB pduTopic1 "" 2 6 10 exChain rfl rfl rfl rfl rfl rfl

/-- C4: a state event that misses the fast path is assigned its new
short-state-hash from the global monotonic counter (the returned hash is
the counter value and the counter is bumped), and `save_state_from_diff`
is called with `added = {new_blob}`, `removed = {replaces}` when a blob
with the same short state key exists in the tip and `∅` otherwise,
`diff_budget = 2`, and the loaded ancestor chain; the save is logged after
the event-to-state link. -/
theorem append_to_state_allocates_and_saves_diff (db : DB) (pdu : PduEvent) (k : String)
    (sev sk : Nat) (prevOpt : Option Nat) (chain : List StateInfo)
    (hk : pdu.state_key = some k)
    (hsev : alookup pdu.event_id db.eventShort = some sev)
    (hsk : alookup (pdu.kind, k) db.statekeyShort = some sk)
    (hprev : alookup pdu.room_id db.roomState = prevOpt)
    (hchain : load_parent_chain db prevOpt = .ok chain)
    (hne : replOf chain sk ≠ some (sk * 2 ^ 64 + sev)) :
    append_to_state db pdu =
      .ok (save_state_from_diff
            { recordLink db sev prevOpt with counter := db.counter + 1 }
            db.counter {sk * 2 ^ 64 + sev}
            ((replOf chain sk).elim ∅ (fun r => {r})) 2 chain,
          db.counter) ∧
      (save_state_from_diff
          { recordLink db sev prevOpt with counter := db.counter + 1 }
          db.counter {sk * 2 ^ 64 + sev}
          ((replOf chain sk).elim ∅ (fun r => {r})) 2 chain).log =
        (recordLink db sev prevOpt).log
          ++ [.saveState db.counter {sk * 2 ^ 64 + sev}
                ((replOf chain sk).elim ∅ (fun r => {r})) 2 chain] :=
  ⟨append_to_state_slow_eq db pdu k sev sk prevOpt chain hk hsev hsk hprev hchain hne,
   by simp⟩

/-- C4 witness: appending `pduTopic2` over the current topic allocates
hash `50` from the counter and saves the diff
`added = {blobTopic2}`, `removed = {blobTopic1}`, budget `2`. -/
theorem append_to_state_allocates_and_saves_diff_witness :
    append_to_state exDB pduTopic2 =
      .ok (save_state_from_diff
            { recordLink exDB 3 (some 10) with counter := exDB.counter + 1 }
            exDB.counter {6 * 2 ^ 64 + 3}
            ((replOf exChain 6).elim ∅ (fun r => {r})) 2 exChain,
          exDB.counter) ∧
      (save_state_from_diff
          { recordLink exDB 3 (some 10) with counter := exDB.counter + 1 }
          exDB.counter {6 * 2 ^ 64 + 3}
          ((replOf exChain 6).elim ∅ (fun r => {r})) 2 exChain).log =
        (recordLink exDB 3 (some 10)).log
          ++ [.saveState exDB.counter {6 * 2 ^ 64 + 3}
                ((replOf exChain 6).elim ∅ (fun r => {r})) 2 exChain] :=
  append_to_state_allocates_and_saves_diff exDB pduTopic2 "" 3 6 (some 10) exChain
    rfl rfl rfl rfl rfl (by decide)

/-- C3 counterexample: for a non-state event in a room with no previous
short-state-hash, `append_to_state` does not return the (absent) previous
hash and writes no event-to-state link — it panics via
`.expect("first event in room must be a state event")`, refuting both
"returns prev, where prev ... may be absent" and "the event-to-state link
is written for every inserted event". -/
theorem append_to_state_first_event_panics :
    append_to_state exDBemptyRoom pduMessage =
      .error (.expectFailed "first event in room must be a state event") := rfl

/-- C3 (amended): for a non-state event in a room that has a previous
short-state-hash `p`, `append_to_state` records the event-to-state link
`short-event-id(e) → p`, skips snapshot creation (the snapshot store is
untouched), and returns `p`; when the room has no previous hash the
function panics and writes no link. -/
theorem append_to_state_non_state_event_spec (db : DB) (pdu : PduEvent) (p : Nat)
    (hk : pdu.state_key = none)
    (hprev : alookup pdu.room_id db.roomState = some p) :
    append_to_state db pdu =
      .ok (withEventStateLink (get_or_create_shorteventid db pdu.event_id).1
            (get_or_create_shorteventid db pdu.event_id).2 p, p) ∧
      (withEventStateLink (get_or_create_shorteventid db pdu.event_id).1
          (get_or_create_shorteventid db pdu.event_id).2 p).snapshotInfo =
        db.snapshotInfo ∧
      (withEventStateLink (get_or_create_shorteventid db pdu.event_id).1
          (get_or_create_shorteventid db pdu.event_id).2 p).eventState =
        ((get_or_create_shorteventid db pdu.event_id).2, p)
          :: (get_or_create_shorteventid db pdu.event_id).1.eventState :=
  ⟨append_to_state_non_state_eq db pdu p hk hprev,
   by simp [goc_event_snapshotInfo], rfl⟩

/-- C3 witness: the non-state message event in `exDB` (room at hash `10`)
returns `10` and records only the link. -/
theorem append_to_state_non_state_event_spec_witness :
    append_to_state exDB pduMessage =
      .ok (withEventStateLink (get_or_create_shorteventid exDB pduMessage.event_id).1
            (get_or_create_shorteventid exDB pduMessage.event_id).2 10, 10) ∧
      (withEventStateLink (get_or_create_shorteventid exDB pduMessage.event_id).1
          (get_or_create_shorteventid exDB pduMessage.event_id).2 10).snapshotInfo =
        exDB.snapshotInfo ∧
      (withEventStateLink (get_or_create_shorteventid exDB pduMessage.event_id).1
          (get_or_create_shorteventid exDB pduMessage.event_id).2 10).eventState =
        ((get_or_create_shorteventid exDB pduMessage.event_id).2, 10)
          :: (get_or_create_shorteventid exDB pduMessage.event_id).1.eventState :=
  append_to_state_non_state_event_spec exDB pduMessage 10 rfl rfl

/-- C5: in `set_event_state`, if the content digest already existed only
the event-to-state link is written (`save_state_from_diff` is not called
and no snapshot record changes); otherwise `save_state_from_diff` is
called with `diff_budget = 1_000_000`; in both cases the event-to-state
link is written after the snapshot work (it is the last logged write). -/
theorem set_event_state_spec (db : DB) (event_id : EventId) (room_id : RoomId)
    (s : Finset Nat) (sev : Nat) (prevOpt : Option Nat) (chain : List StateInfo)
    (hsev : alookup event_id db.eventShort = some sev)
    (hprev : alookup room_id db.roomState = prevOpt) :
    (∀ h, alookup (calculate_hash s) db.statehashShort = some h →
      set_event_state db event_id room_id s = .ok (withEventStateLink db sev h) ∧
        (withEventStateLink db sev h).snapshotInfo = db.snapshotInfo ∧
        (withEventStateLink db sev h).log = db.log ++ [.eventStateLink sev h]) ∧
    (alookup (calculate_hash s) db.statehashShort = none →
      load_parent_chain db prevOpt = .ok chain →
      set_event_state db event_id room_id s =
        .ok (withEventStateLink
              (save_state_from_diff
                { db with
                    counter := db.counter + 1,
                    statehashShort := (calculate_hash s, db.counter) :: db.statehashShort }
                db.counter
                (match chain.getLast? with | some t => s \ t.full | none => s)
                (match chain.getLast? with | some t => t.full \ s | none => (∅ : Finset Nat))
                1000000 chain)
              sev db.counter) ∧
        (withEventStateLink
            (save_state_from_diff
              { db with
                  counter := db.counter + 1,
                  statehashShort := (calculate_hash s, db.counter) :: db.statehashShort }
              db.counter
              (match chain.getLast? with | some t => s \ t.full | none => s)
              (match chain.getLast? with | some t => t.full \ s | none => (∅ : Finset Nat))
              1000000 chain)
            sev db.counter).log =
          db.log
            ++ [.saveState db.counter
                  (match chain.getLast? with | some t => s \ t.full | none => s)
                  (match chain.getLast? with | some t => t.full \ s | none => (∅ : Finset Nat))
                  1000000 chain]
            ++ [.eventStateLink sev db.counter]) := by
  constructor
  · intro h hh
    exact ⟨set_event_state_existing_eq db event_id room_id s sev h hsev hh, rfl, rfl⟩
  · intro hh hc
    refine ⟨set_event_state_new_eq db event_id room_id s sev prevOpt chain hsev hprev hh hc,
      ?_⟩
    simp

/-- C5 witness: with the digest of `{blobCreate}` already registered in
`exDBhash` only the link to hash `20` is written; with a fresh digest in
`exDB` the snapshot is saved with budget `1000000` and the link follows
it. -/
theorem set_event_state_spec_witness :
    (set_event_state exDBhash "$topic2" "!r" {blobCreate} =
        .ok (withEventStateLink exDBhash 3 20) ∧
      (withEventStateLink exDBhash 3 20).snapshotInfo = exDBhash.snapshotInfo ∧
      (withEventStateLink exDBhash 3 20).log =
        exDBhash.log ++ [.eventStateLink 3 20]) ∧
    (set_event_state exDB "$topic2" "!r" {blobCreate, blobTopic2} =
        .ok (withEventStateLink
              (save_state_from_diff
                { exDB with
                    counter := exDB.counter + 1,
                    statehashShort :=
                      (calculate_hash {blobCreate, blobTopic2}, exDB.counter)
                        :: exDB.statehashShort }
                exDB.counter
                (match exChain.getLast? with
                  | some t => {blobCreate, blobTopic2} \ t.full
                  | none => {blobCreate, blobTopic2})
                (match exChain.getLast? with
                  | some t => t.full \ {blobCreate, blobTopic2}
                  | none => (∅ : Finset Nat))
                1000000 exChain)
              3 exDB.counter) ∧
      (withEventStateLink
          (save_state_from_diff
            { exDB with
                counter := exDB.counter + 1,
                statehashShort :=
                  (calculate_hash {blobCreate, blobTopic2}, exDB.counter)
                    :: exDB.statehashShort }
            exDB.counter
            (match exChain.getLast? with
              | some t => {blobCreate, blobTopic2} \ t.full
              | none => {blobCreate, blobTopic2})
            (match exChain.getLast? with
              | some t => t.full \ {blobCreate, blobTopic2}
              | none => (∅ : Finset Nat))
            1000000 exChain)
          3 exDB.counter).log =
        exDB.log
          ++ [.saveState exDB.counter
                (match exChain.getLast? with
                  | some t => {blobCreate, blobTopic2} \ t.full
                  | none => {blobCreate, blobTopic2})
                (match exChain.getLast? with
                  | some t => t.full \ {blobCreate, blobTopic2}
                  | none => (∅ : Finset Nat))
                1000000 exChain]
          ++ [.eventStateLink 3 exDB.counter]) :=
  ⟨(set_event_state_spec exDBhash "$topic2" "!r" {blobCreate} 3 (some 10) exChain
      rfl rfl).1 20 (by simp [alookup, exDBhash]),
   (set_event_state_spec exDB "$topic2" "!r" {blobCreate, blobTopic2} 3 (some 10) exChain
      rfl rfl).2 rfl rfl⟩

/-- C6: the diff handed to `save_state_from_diff` by `set_event_state`
satisfies `removed ⊆ flatten(parent)` and `added ∩ flatten(parent) = ∅`;
with an ancestor tip `t` the diff is `added = S \ t.full`,
`removed = t.full \ S`, and with no tip it is `added = S`,
`removed = ∅`. -/
theorem set_event_state_diff_invariant (db : DB) (event_id : EventId) (room_id : RoomId)
    (s : Finset Nat) (sev : Nat) (prevOpt : Option Nat) (chain : List StateInfo)
    (hsev : alookup event_id db.eventShort = some sev)
    (hprev : alookup room_id db.roomState = prevOpt)
    (hhash : alookup (calculate_hash s) db.statehashShort = none)
    (hchain : load_parent_chain db prevOpt = .ok chain) :
    set_event_state db event_id room_id s =
      .ok (withEventStateLink
            (save_state_from_diff
              { db with
                  counter := db.counter + 1,
                  statehashShort := (calculate_hash s, db.counter) :: db.statehashShort }
              db.counter
              (match chain.getLast? with | some t => s \ t.full | none => s)
              (match chain.getLast? with | some t => t.full \ s | none => (∅ : Finset Nat))
              1000000 chain)
            sev db.counter) ∧
    (match chain.getLast? with | some t => t.full \ s | none => (∅ : Finset Nat))
        ⊆ tipFull chain ∧
    (match chain.getLast? with | some t => s \ t.full | none => s) ∩ tipFull chain = ∅ ∧
    (chain.getLast? = none →
      (match chain.getLast? with | some t => s \ t.full | none => s) = s ∧
      (match chain.getLast? with | some t => t.full \ s | none => (∅ : Finset Nat)) = ∅) ∧
    (∀ t, chain.getLast? = some t →
      (match chain.getLast? with | some t => s \ t.full | none => s) = s \ t.full ∧
      (match chain.getLast? with | some t => t.full \ s | none => (∅ : Finset Nat)) =
        t.full \ s) := by
  refine ⟨set_event_state_new_eq db event_id room_id s sev prevOpt chain hsev hprev
    hhash hchain, ?_, ?_, ?_, ?_⟩ <;>
    cases hgl : chain.getLast? <;>
      simp [tipFull, hgl, Finset.sdiff_subset, Finset.sdiff_inter_self]

/-- C6 witness: the diff computed for `{blobCreate, blobTopic2}` over the
tip of `exChain` is `added = {blobTopic2}` minus nothing further,
`removed = {blobTopic1, blobMember}` contained in the tip, and disjoint
from the tip. -/
theorem set_event_state_diff_invariant_witness :
    set_event_state exDB "$topic2" "!r" {blobCreate, blobTopic2} =
      .ok (withEventStateLink
            (save_state_from_diff
              { exDB with
                  counter := exDB.counter + 1,
                  statehashShort :=
                    (calculate_hash {blobCreate, blobTopic2}, exDB.counter)
                      :: exDB.statehashShort }
              exDB.counter
              (match exChain.getLast? with
                | some t => {blobCreate, blobTopic2} \ t.full
                | none => {blobCreate, blobTopic2})
              (match exChain.getLast? with
                | some t => t.full \ {blobCreate, blobTopic2}
                | none => (∅ : Finset Nat))
              1000000 exChain)
            3 exDB.counter) ∧
    (match exChain.getLast? with
        | some t => t.full \ {blobCreate, blobTopic2}
        | none => (∅ : Finset Nat)) ⊆ tipFull exChain ∧
    (match exChain.getLast? with
        | some t => {blobCreate, blobTopic2} \ t.full
        | none => {blobCreate, blobTopic2}) ∩ tipFull exChain = ∅ ∧
    (exChain.getLast? = none →
      (match exChain.getLast? with
        | some t => {blobCreate, blobTopic2} \ t.full
        | none => {blobCreate, blobTopic2}) = {blobCreate, blobTopic2} ∧
      (match exChain.getLast? with
        | some t => t.full \ {blobCreate, blobTopic2}
        | none => (∅ : Finset Nat)) = ∅) ∧
    (∀ t, exChain.getLast? = some t →
      (match exChain.getLast? with
        | some t => {blobCreate, blobTopic2} \ t.full
        | none => {blobCreate, blobTopic2}) = {blobCreate, blobTopic2} \ t.full ∧
      (match exChain.getLast? with
        | some t => t.full \ {blobCreate, blobTopic2}
        | none => (∅ : Finset Nat)) = t.full \ {blobCreate, blobTopic2}) :=
  set_event_state_diff_invariant exDB "$topic2" "!r" {blobCreate, blobTopic2} 3
    (some 10) exChain rfl rfl rfl rfl

/-- C8: `calculate_invite_state` returns, in order, the stripped forms of
the current `m.room.create`, `m.room.join_rules`, `m.room.canonical_alias`,
`m.room.avatar`, `m.room.name` and `m.room.member` (state key = the invite
sender) events of the invite room, skipping any that are absent, and the
stripped invite event itself is always appended last. -/
theorem calculate_invite_state_spec (db : DB) (invite_event : PduEvent)
    (o1 o2 o3 o4 o5 o6 : Option PduEvent)
    (h1 : room_state_get db invite_event.room_id "m.room.create" "" = .ok o1)
    (h2 : room_state_get db invite_event.room_id "m.room.join_rules" "" = .ok o2)
    (h3 : room_state_get db invite_event.room_id "m.room.canonical_alias" "" = .ok o3)
    (h4 : room_state_get db invite_event.room_id "m.room.avatar" "" = .ok o4)
    (h5 : room_state_get db invite_event.room_id "m.room.name" "" = .ok o5)
    (h6 : room_state_get db invite_event.room_id "m.room.member" invite_event.sender
      = .ok o6) :
    calculate_invite_state db invite_event =
      .ok (([o1, o2, o3, o4, o5, o6].filterMap id).map to_stripped_state_event
        ++ [to_stripped_state_event invite_event]) := by
  unfold calculate_invite_state
  simp only [h1, h2, h3, h4, h5, h6]
  cases o1 <;> cases o2 <;> cases o3 <;> cases o4 <;> cases o5 <;> cases o6 <;>
    simp [pushOpt]

/-- C8 witness: in `exDB`, room `!r` has a create event and a member event
for the sender `@a:s` but no join-rules, alias, avatar or name; the result
is `[create, member(@a:s), invite]` in that order. -/
theorem calculate_invite_state_spec_witness :
    calculate_invite_state exDB pduInvite =
      .ok (([some pduCreate, none, none, none, none, some pduMember].filterMap id).map
          to_stripped_state_event
        ++ [to_stripped_state_event pduInvite]) :=
  calculate_invite_state_spec exDB pduInvite (some pduCreate) none none none none
    (some pduMember) rfl rfl rfl rfl rfl rfl

/-- C9: `get_room_version` returns the `room_version` field of the current
`m.room.create` event; it fails with a `BadDatabase` error both when that
event is absent from the room's current state and when its content fails
to parse as create-event content. -/
theorem get_room_version_spec (db : DB) (room_id : RoomId) :
    (∀ ev v, room_state_get db room_id "m.room.create" "" = .ok (some ev) →
      ev.content.roomVersion = some v → get_room_version db room_id = .ok v) ∧
    (∀ ev, room_state_get db room_id "m.room.create" "" = .ok (some ev) →
      ev.content.roomVersion = none →
      get_room_version db room_id = .error (.badDatabase "Invalid create event in db.")) ∧
    (room_state_get db room_id "m.room.create" "" = .ok none →
      get_room_version db room_id = .error (.badDatabase "Invalid room version")) := by
  refine ⟨?_, ?_, ?_⟩
  · intro ev v hget hv
    unfold get_room_version
    simp only [hget]
    simp [exceptTranspose, parse_create_event_content, hv]
  · intro ev hget hv
    unfold get_room_version
    simp only [hget]
    simp [exceptTranspose, parse_create_event_content, hv]
  · intro hget
    unfold get_room_version
    simp only [hget]
    simp [exceptTranspose]

/-- C9 witness: in `exDB` the create event carries version `"6"`; in
`exDBbadCreate` its content does not parse; room `!x` has no state at
all. -/
theorem get_room_version_spec_witness :
    get_room_version exDB "!r" = .ok "6" ∧
    get_room_version exDBbadCreate "!r" =
      .error (.badDatabase "Invalid create event in db.") ∧
    get_room_version exDB "!x" = .error (.badDatabase "Invalid room version") :=
  ⟨(get_room_version_spec exDB "!r").1 pduCreate "6" rfl rfl,
   (get_room_version_spec exDBbadCreate "!r").2.1 pduBadCreate rfl rfl,
   (get_room_version_spec exDB "!x").2.2 rfl⟩

/-- C1 counterexample: `append_to_state exDB pduTopic2` returns the fresh
hash `50`, but `room_state_get` reads through the room pointer, which
`append_to_state` did not advance; it therefore still resolves
`(m.room.topic, "")` to the old event `pduTopic1`, not to `pduTopic2`. -/
theorem room_state_get_after_append_stale :
    append_to_state exDB pduTopic2 = .ok (exDBafterTopic2, 50) ∧
    room_state_get exDBafterTopic2 "!r" "m.room.topic" "" = .ok (some pduTopic1) ∧
    pduTopic1 ≠ pduTopic2 :=
  ⟨rfl, rfl, by decide⟩

/-- C1 (amended): after `append_to_state(e)` returns `h` **and the caller
advances the room pointer to `h` via `set_room_state`** (the advancement
the spec assigns to the caller), `room_state_get(e.room_id, e.type,
e.state_key)` resolves to `e`.  The hypotheses are the store-consistency
conditions the claim presupposes: the event and its state key are
registered consistently in both directions, the event is stored, and the
tip snapshot holds at most one blob per short state key. -/
theorem room_state_get_after_append_and_advance (db : DB) (pdu : PduEvent) (k : String)
    (sev sk : Nat) (prevOpt : Option Nat) (chain : List StateInfo) (db' : DB) (h : Nat)
    (hk : pdu.state_key = some k)
    (hsev : alookup pdu.event_id db.eventShort = some sev)
    (hsev64 : sev < 2 ^ 64)
    (hrev : alookup sev db.shortEvent = some pdu.event_id)
    (hpdu : alookup pdu.event_id db.pdus = some pdu)
    (hsk : alookup (pdu.kind, k) db.statekeyShort = some sk)
    (hprev : alookup pdu.room_id db.roomState = prevOpt)
    (hchain : load_parent_chain db prevOpt = .ok chain)
    (huniq : ∀ b1 ∈ tipFull chain, ∀ b2 ∈ tipFull chain,
      b1 / 2 ^ 64 = sk → b2 / 2 ^ 64 = sk → b1 = b2)
    (happend : append_to_state db pdu = .ok (db', h)) :
    room_state_get (set_room_state db' pdu.room_id h) pdu.room_id pdu.kind k =
      .ok (some pdu) := by
  by_cases hfast : replOf chain sk = some (sk * 2 ^ 64 + sev)
  · cases prevOpt with
    | none =>
      exfalso
      simp only [load_parent_chain] at hchain
      injection hchain with hchain
      rw [← hchain] at hfast
      simp [replOf] at hfast
    | some p =>
      have hchainL := load_info_ok_inv db p chain
        (by simpa [load_parent_chain] using hchain)
      have heq := append_to_state_fast_eq db pdu k sev sk p chain hk hsev hsk hprev
        hchainL hfast
      rw [happend] at heq
      simp only [Except.ok.injEq, Prod.mk.injEq] at heq
      obtain ⟨hdb', hh⟩ := heq
      subst hdb'
      subst hh
      unfold room_state_get get_room_shortstatehash load_shortstatehash_info
      simp only [set_room_state_roomState, set_room_state_statekeyShort,
        set_room_state_snapshotInfo, set_room_state_shortEvent, set_room_state_pdus,
        withEventStateLink_roomState, withEventStateLink_statekeyShort,
        withEventStateLink_snapshotInfo, withEventStateLink_shortEvent,
        withEventStateLink_pdus, alookup_cons_self, hsk, hchainL,
        ← replOf_eq_lookupKey, hfast, blob_mod sk sev hsev64, hrev, hpdu]
  · have heq := append_to_state_slow_eq db pdu k sev sk prevOpt chain hk hsev hsk hprev
      hchain hfast
    rw [happend] at heq
    simp only [Except.ok.injEq, Prod.mk.injEq] at heq
    obtain ⟨hdb', hh⟩ := heq
    subst hdb'
    subst hh
    unfold room_state_get get_room_shortstatehash load_shortstatehash_info
    rw [replOf_eq_lookupKey] at hfast
    simp only [set_room_state_roomState, set_room_state_statekeyShort,
      set_room_state_snapshotInfo, set_room_state_shortEvent, set_room_state_pdus,
      save_state_from_diff_statekeyShort, save_state_from_diff_snapshotInfo,
      save_state_from_diff_shortEvent, save_state_from_diff_pdus,
      recordLink_statekeyShort, recordLink_shortEvent, recordLink_pdus,
      alookup_cons_self, hsk, tipFull_concat, replOf_eq_lookupKey,
      lookupKey_after_update (tipFull chain) sk sev hsev64 huniq,
      blob_mod sk sev hsev64, hrev, hpdu]

/-- C1 witness: after appending `pduTopic2` (returning hash `50`) and
advancing the room pointer to `50`, `room_state_get` resolves the topic to
`pduTopic2`. -/
theorem room_state_get_after_append_and_advance_witness :
    room_state_get (set_room_state exDBafterTopic2 "!r" 50) "!r" "m.room.topic" "" =
      .ok (some pduTopic2) :=
  room_state_get_after_append_and_advance exDB pduTopic2 "" 3 6 (some 10) exChain
    exDBafterTopic2 50 rfl rfl (by decide) rfl rfl rfl rfl rfl (by decide) rfl
